import Mathlib

/-!
# Rasterizer: scene-construction helpers and RGBColor

A shallow embedding of `src/main.cpp` (the primitive builders `buildAlignedBox`,
`buildHorizontalPlane`, the five object builders and the scene assembly of `main`) and of
`src/RGBColor.cpp`.

`float` values are embedded as rationals: every finite `float` is a rational number and the
properties below are stated for exact arithmetic.  `uint32_t` indices are literals far below
`2 ^ 32` on which no arithmetic is performed; they are embedded as natural numbers.
-/

namespace Rasterizer

/-! ## Value types -/

/-- A `Point3D(x, y, z)`: a position with three `float` components. -/
structure Point3D where
  x : ℚ
  y : ℚ
  z : ℚ
  deriving DecidableEq

/-- A `Vector3D(x, y, z)`: a direction with three `float` components. -/
structure Vector3D where
  x : ℚ
  y : ℚ
  z : ℚ
  deriving DecidableEq

/-- A `Vector2D(x, y)`: a texture coordinate. -/
structure Vector2D where
  x : ℚ
  y : ℚ
  deriving DecidableEq

/-- The three buffers that `buildAlignedBox` and `buildHorizontalPlane` assign through their
reference parameters `vertices`, `texture_coords` and `indices`.  Each of the three is
overwritten as a whole by the call, so the result does not depend on their previous content. -/
structure MeshBuffers where
  vertices : List Point3D
  texture_coords : List Vector2D
  indices : List ℕ
  deriving DecidableEq

/-- The value of `sin(PI / 2)`.  `PI` comes from `Constants.h`; in exact arithmetic the sine of
a right angle is one. -/
def sinHalfPi : ℚ := 1

/-! ## `buildAlignedBox` (main.cpp, lines 129-223) -/

/-- The body of `buildAlignedBox`: eight corner points computed from `side`, then the three
literal tables. -/
def buildAlignedBox (side : ℚ) : MeshBuffers :=
  let half_diagonal : ℚ := (side / 2) / sinHalfPi
  -- Front
  let v1 : Point3D := ⟨-half_diagonal, -half_diagonal, -half_diagonal⟩
  let v2 : Point3D := ⟨v1.x, v1.y + side, v1.z⟩
  let v3 : Point3D := ⟨v1.x + side, v1.y + side, v1.z⟩
  let v4 : Point3D := ⟨v1.x + side, v1.y, v1.z⟩
  -- Back
  let v5 : Point3D := ⟨v1.x, v1.y, v1.z + side⟩
  let v6 : Point3D := ⟨v2.x, v2.y, v2.z + side⟩
  let v7 : Point3D := ⟨v3.x, v3.y, v3.z + side⟩
  let v8 : Point3D := ⟨v4.x, v4.y, v4.z + side⟩
  { vertices := [
      -- Front face
      v1, v2, v3, v4,
      -- Back face
      v5, v6, v7, v8,
      -- Top face
      v2, v6, v7, v3,
      -- Bottom face
      v1, v5, v8, v4,
      -- Left face
      v1, v2, v6, v5,
      -- Right face
      v4, v3, v7, v8]
    texture_coords := [
      -- Front face
      ⟨0, 0⟩, ⟨0, 1⟩, ⟨1, 1⟩, ⟨1, 0⟩,
      -- Back face
      ⟨1, 1⟩, ⟨1, 0⟩, ⟨0, 0⟩, ⟨0, 1⟩,
      -- Top face
      ⟨0, 0⟩, ⟨0, 1⟩, ⟨1, 1⟩, ⟨1, 0⟩,
      -- Bottom face
      ⟨0, 0⟩, ⟨0, 1⟩, ⟨1, 1⟩, ⟨1, 0⟩,
      -- Left face
      ⟨1, 0⟩, ⟨1, 1⟩, ⟨0, 1⟩, ⟨0, 0⟩,
      -- Right face
      ⟨0, 0⟩, ⟨0, 1⟩, ⟨1, 1⟩, ⟨1, 0⟩]
    indices := [
      -- Front face
      0, 1, 2,
      2, 3, 0,
      -- Back face
      6, 5, 4,
      4, 7, 6,
      -- Top face
      8, 9, 10,
      10, 11, 8,
      -- Bottom face
      14, 13, 12,
      12, 15, 14,
      -- Left face
      16, 19, 18,
      18, 17, 16,
      -- Right face
      20, 21, 22,
      22, 23, 20] }

/-! ## `buildHorizontalPlane` (main.cpp, lines 288-314) -/

/-- The body of `buildHorizontalPlane`: four corner points computed from `side`, then the
three literal tables. -/
def buildHorizontalPlane (side : ℚ) : MeshBuffers :=
  let half_diagonal : ℚ := (side / 2) / sinHalfPi
  let v1 : Point3D := ⟨-half_diagonal, 0, -half_diagonal⟩
  let v2 : Point3D := ⟨v1.x, v1.y, v1.z + side⟩
  let v3 : Point3D := ⟨v1.x + side, v1.y, v1.z + side⟩
  let v4 : Point3D := ⟨v1.x + side, v1.y, v1.z⟩
  { vertices := [v1, v2, v3, v4]
    texture_coords := [⟨0, 0⟩, ⟨0, 2⟩, ⟨2, 2⟩, ⟨2, 0⟩]
    indices := [
      0, 1, 2,
      2, 3, 0] }

/-- The outcome of a call `buildAlignedBox(vertices, texture_coords, indices, side)`, with
`none` standing for a call that fails.  The body (lines 130-222) holds no test on `side`, no
`throw`, no assertion and no early `return`: it is a sequence of unconditional initialisations
and assignments, so every call completes with the three buffers assigned. -/
def buildAlignedBoxCall (side : ℚ) : Option MeshBuffers :=
  some (buildAlignedBox side)

/-- The outcome of a call `buildHorizontalPlane(vertices, texture_coords, indices, side)`, with
`none` standing for a call that fails.  As for the box, the body (lines 289-313) is a sequence
of unconditional initialisations and assignments. -/
def buildHorizontalPlaneCall (side : ℚ) : Option MeshBuffers :=
  some (buildHorizontalPlane side)

/-! ## `RGBColor` (RGBColor.cpp) -/

/-- An `RGBColor`: the three `float` members `r`, `g`, `b`. -/
structure RGBColor where
  r : ℚ
  g : ℚ
  b : ℚ
  deriving DecidableEq

namespace RGBColor

/-- The default constructor `RGBColor::RGBColor()`: `r(1), g(1), b(1)`. -/
def default : RGBColor := { r := 1, g := 1, b := 1 }

/-- The one-argument constructor `RGBColor::RGBColor(const float rgb)`:
`r(rgb), g(rgb), b(rgb)`. -/
def ofFloat (rgb : ℚ) : RGBColor := { r := rgb, g := rgb, b := rgb }

/-- The three-argument constructor `RGBColor::RGBColor(red, green, blue)`:
`r(red), g(green), b(blue)`. -/
def ofFloats (red green blue : ℚ) : RGBColor := { r := red, g := green, b := blue }

/-- The conversion `RGBColor::operator Vector3D() const`: `Vector3D(r, g, b)`. -/
def toVector3D (c : RGBColor) : Vector3D := Vector3D.mk c.r c.g c.b

end RGBColor

/-- The named colours of `Constants.h` that `buildMultiColorBox` uses.  That header is not
among the sources, so the values are a parameter of the builder. -/
structure Colors where
  GREEN : RGBColor
  YELLOW : RGBColor
  WHITE : RGBColor
  CYAN : RGBColor
  BLACK : RGBColor
  RED : RGBColor
  PURPLE : RGBColor
  BLUE : RGBColor

/-! ## The object builders (main.cpp, lines 225-286 and 316-333) -/

/-- A `Material*`: the builders only pass it on. -/
structure MaterialPtr where
  address : ℕ
  deriving DecidableEq

/-- The six arguments of `new GeometryObject(material, vertices, colors, texture_coords,
indices, center)`, in the order of the call.  The class itself is declared outside the
sources; an object is represented by what its constructor is handed. -/
structure GeometryObject where
  material : MaterialPtr
  vertices : List Point3D
  colors : List RGBColor
  texture_coords : List Vector2D
  indices : List ℕ
  center : Point3D
  deriving DecidableEq

/-- `buildPlainBox`: `std::vector<RGBColor>(24, color)` next to the box buffers. -/
def buildPlainBox (material : MaterialPtr) (color : RGBColor) (center : Point3D) (side : ℚ) :
    GeometryObject :=
  let colors : List RGBColor := List.replicate 24 color
  let buffers := buildAlignedBox side
  { material := material, vertices := buffers.vertices, colors := colors,
    texture_coords := buffers.texture_coords, indices := buffers.indices, center := center }

/-- `buildMultiColorBox`: the literal colour table next to the box buffers. -/
def buildMultiColorBox (palette : Colors) (material : MaterialPtr) (center : Point3D)
    (side : ℚ) : GeometryObject :=
  let colors : List RGBColor := [
    palette.GREEN, palette.YELLOW, palette.WHITE, palette.CYAN,
    palette.BLACK, palette.BLACK, palette.BLACK, palette.BLACK,
    palette.YELLOW, palette.RED, palette.PURPLE, palette.WHITE,
    palette.BLACK, palette.BLACK, palette.BLACK, palette.BLACK,
    palette.BLACK, palette.BLACK, palette.BLACK, palette.BLACK,
    palette.CYAN, palette.WHITE, palette.PURPLE, palette.BLUE]
  let buffers := buildAlignedBox side
  { material := material, vertices := buffers.vertices, colors := colors,
    texture_coords := buffers.texture_coords, indices := buffers.indices, center := center }

/-- `buildTexturedBox`: an empty `std::vector<RGBColor>()` next to the box buffers. -/
def buildTexturedBox (material : MaterialPtr) (center : Point3D) (side : ℚ) : GeometryObject :=
  let buffers := buildAlignedBox side
  { material := material, vertices := buffers.vertices, colors := [],
    texture_coords := buffers.texture_coords, indices := buffers.indices, center := center }

/-- `buildPlainPlane`: `std::vector<RGBColor>(4, color)` next to the plane buffers. -/
def buildPlainPlane (material : MaterialPtr) (color : RGBColor) (center : Point3D) (side : ℚ) :
    GeometryObject :=
  let colors : List RGBColor := List.replicate 4 color
  let buffers := buildHorizontalPlane side
  { material := material, vertices := buffers.vertices, colors := colors,
    texture_coords := buffers.texture_coords, indices := buffers.indices, center := center }

/-- `buildTexturedPlane`: an empty `std::vector<RGBColor>()` next to the plane buffers. -/
def buildTexturedPlane (material : MaterialPtr) (center : Point3D) (side : ℚ) :
    GeometryObject :=
  let buffers := buildHorizontalPlane side
  { material := material, vertices := buffers.vertices, colors := [],
    texture_coords := buffers.texture_coords, indices := buffers.indices, center := center }

/-- The length invariant of a geometry object:
`len(colors) ∈ {0, len(vertices)}` and `len(texcoords) ∈ {0, len(vertices)}`. -/
def GeometryObject.LengthInvariant (o : GeometryObject) : Prop :=
  (o.colors.length = 0 ∨ o.colors.length = o.vertices.length) ∧
  (o.texture_coords.length = 0 ∨ o.texture_coords.length = o.vertices.length)

/-! ## Vector algebra used to state the winding properties -/

/-- The difference of two points, `b - a`, as a vector. -/
def Point3D.sub (b a : Point3D) : Vector3D :=
  { x := b.x - a.x, y := b.y - a.y, z := b.z - a.z }

/-- The cross product of two vectors. -/
def Vector3D.cross (u v : Vector3D) : Vector3D :=
  { x := u.y * v.z - u.z * v.y, y := u.z * v.x - u.x * v.z, z := u.x * v.y - u.y * v.x }

/-- The dot product of two vectors. -/
def Vector3D.dot (u v : Vector3D) : ℚ :=
  u.x * v.x + u.y * v.y + u.z * v.z

/-- The right-hand normal `(b - a) × (c - a)` of the triangle `(a, b, c)`. -/
def triangleNormal (a b c : Point3D) : Vector3D :=
  (b.sub a).cross (c.sub a)

/-- The centroid of the triangle `(a, b, c)`, as a position vector from the origin. -/
def triangleCentroid (a b c : Point3D) : Vector3D :=
  { x := (a.x + b.x + c.x) / 3, y := (a.y + b.y + c.y) / 3, z := (a.z + b.z + c.z) / 3 }

/-- The three corner points of triangle number `t` of a mesh: the vertices found at the
indices stored at positions `3 * t`, `3 * t + 1` and `3 * t + 2`.  `none` when one of the
lookups falls outside a buffer. -/
def MeshBuffers.triangle (m : MeshBuffers) (t : ℕ) : Option (Point3D × Point3D × Point3D) :=
  match m.indices[3 * t]?, m.indices[3 * t + 1]?, m.indices[3 * t + 2]? with
  | some ia, some ib, some ic =>
    match m.vertices[ia]?, m.vertices[ib]?, m.vertices[ic]? with
    | some a, some b, some c => some (a, b, c)
    | _, _, _ => none
  | _, _, _ => none

/-- The corner of the cube of edge `side` centred at the origin that is selected by three
signs: `true` stands for `+side / 2`, `false` for `-side / 2`. -/
def cubeCorner (side : ℚ) (px py pz : Bool) : Point3D :=
  { x := if px then side / 2 else -(side / 2),
    y := if py then side / 2 else -(side / 2),
    z := if pz then side / 2 else -(side / 2) }

/-- The four vertices of face number `f` of a box: positions `4 * f` to `4 * f + 3` of the
vertex buffer. -/
def faceVertices (m : MeshBuffers) (f : ℕ) : List Point3D :=
  (m.vertices.drop (4 * f)).take 4

/-! ## The scene assembly of `main` (main.cpp, lines 29-66)

`main` is a straight-line statement sequence in which six statements are guarded by
preprocessor conditionals.  The model follows the two global pointers `camera` and `renderer`,
the local pointer `world`, the objects allocated by `new` and the two calls on the renderer.
Lines 32-36 (the light list and the two object lists) touch none of them and are left out. -/

/-- The object list handed to `new World`: `objects_flat` or `objects_textured`. -/
inductive SceneKind where
  | flat
  | textured
  deriving DecidableEq

/-- The class instantiated for the renderer: `ForwardRasterizer` or `DeferredRasterizer`. -/
inductive RendererKind where
  | forward
  | deferred
  deriving DecidableEq

/-- The class instantiated for the camera: `OrthographicCamera` or `PerspectiveCamera`. -/
inductive CameraKind where
  | orthographic
  | perspective
  deriving DecidableEq

/-- A build configuration: which of the six macros tested by `main` are defined. -/
structure BuildConfig where
  SCENE_FLAT : Bool
  SCENE_TEXTURED : Bool
  FORWARD : Bool
  DEFERRED : Bool
  ORTHOGRAPHIC : Bool
  PERSPECTIVE : Bool
  deriving DecidableEq

/-- A pointer value: the null pointer, the indeterminate value of a pointer variable that was
declared without initialiser, or the address of an allocated object. -/
inductive Ptr where
  | null
  | indeterminate
  | addr (a : ℕ)
  deriving DecidableEq

/-- The statements of `main` that the model follows. -/
inductive MainStmt where
  /-- Line 38: `World * world;`, a declaration of the local `world` without initialiser. -/
  | declareWorld
  /-- Lines 40 and 44: `World * world = new World(objects, lights, camera);`, a declaration of
  the local `world` with initialiser. -/
  | newWorld (scene : SceneKind)
  /-- Lines 48 and 52: `renderer = new ...Rasterizer(world);`. -/
  | newRenderer (kind : RendererKind)
  /-- Lines 56 and 60: `camera = new ...Camera(..., renderer);`. -/
  | newCamera (kind : CameraKind)
  /-- Line 62: `world->m_camera = camera;`. -/
  | attachCamera
  /-- Line 63: `renderer->render();`. -/
  | render
  /-- Line 64: `renderer->export_output(IMAGE_NAME);`. -/
  | exportOutput
  deriving DecidableEq

/-- The source line of a statement. -/
def MainStmt.line : MainStmt → ℕ
  | MainStmt.declareWorld => 38
  | MainStmt.newWorld SceneKind.flat => 40
  | MainStmt.newWorld SceneKind.textured => 44
  | MainStmt.newRenderer RendererKind.forward => 48
  | MainStmt.newRenderer RendererKind.deferred => 52
  | MainStmt.newCamera CameraKind.orthographic => 56
  | MainStmt.newCamera CameraKind.perspective => 60
  | MainStmt.attachCamera => 62
  | MainStmt.render => 63
  | MainStmt.exportOutput => 64

/-- Whether a statement declares the local variable `world` in the block of `main`. -/
def MainStmt.declaresWorld : MainStmt → Bool
  | MainStmt.declareWorld => true
  | MainStmt.newWorld _ => true
  | _ => false

/-- The statement sequence that the preprocessor leaves in `main` under a configuration, in
source order. -/
def mainBody (cfg : BuildConfig) : List MainStmt :=
  [MainStmt.declareWorld]
    ++ (if cfg.SCENE_FLAT then [MainStmt.newWorld SceneKind.flat] else [])
    ++ (if cfg.SCENE_TEXTURED then [MainStmt.newWorld SceneKind.textured] else [])
    ++ (if cfg.FORWARD then [MainStmt.newRenderer RendererKind.forward] else [])
    ++ (if cfg.DEFERRED then [MainStmt.newRenderer RendererKind.deferred] else [])
    ++ (if cfg.ORTHOGRAPHIC then [MainStmt.newCamera CameraKind.orthographic] else [])
    ++ (if cfg.PERSPECTIVE then [MainStmt.newCamera CameraKind.perspective] else [])
    ++ [MainStmt.attachCamera, MainStmt.render, MainStmt.exportOutput]

/-- The ways in which `main` fails, each with the source line at which it does. -/
inductive MainError where
  /-- The block declares `world` a second time at this line: the program is ill-formed and
  is not built. -/
  | redeclaration (line : ℕ)
  /-- The statement at this line accesses an object through a pointer whose value is
  indeterminate. -/
  | indeterminatePointer (line : ℕ)
  /-- The statement at this line accesses an object through the null pointer. -/
  | nullPointer (line : ℕ)
  deriving DecidableEq

/-- The source line of a failure. -/
def MainError.line : MainError → ℕ
  | MainError.redeclaration line => line
  | MainError.indeterminatePointer line => line
  | MainError.nullPointer line => line

/-- The check a compiler makes on the block of `main`: a name is declared at most once in a
block, so the second declaration of `world` is an error. -/
def checkDeclarations (body : List MainStmt) : Except MainError Unit :=
  match body.filter MainStmt.declaresWorld with
  | _ :: second :: _ => Except.error (MainError.redeclaration second.line)
  | _ => Except.ok ()

/-- A `World` object: its address, the object list it was built from, and its member
`m_camera`, which starts as the `camera` argument of the constructor. -/
structure WorldObject where
  address : ℕ
  scene : SceneKind
  m_camera : Ptr
  deriving DecidableEq

/-- A renderer object: its address, its class, and the `world` argument of its
constructor. -/
structure RendererObject where
  address : ℕ
  kind : RendererKind
  world : Ptr
  deriving DecidableEq

/-- A camera object: its address, its class, and the `renderer` argument of its
constructor. -/
structure CameraObject where
  address : ℕ
  kind : CameraKind
  renderer : Ptr
  deriving DecidableEq

/-- A member call made by `main`, with the address of the renderer it is made on. -/
inductive Call where
  | render (receiver : ℕ)
  | exportOutput (receiver : ℕ)
  deriving DecidableEq

/-- The program state that `main` reads and writes. -/
structure MainState where
  /-- The global `Camera * camera`. -/
  camera : Ptr
  /-- The global `Renderer * renderer`. -/
  renderer : Ptr
  /-- The local `World * world`. -/
  world : Ptr
  /-- The `World` objects allocated so far. -/
  worlds : List WorldObject
  /-- The renderer objects allocated so far. -/
  renderers : List RendererObject
  /-- The camera objects allocated so far. -/
  cameras : List CameraObject
  /-- The address that the next `new` returns. -/
  nextAddress : ℕ
  /-- The calls of `render()` and `export_output()` made so far, oldest first. -/
  calls : List Call
  deriving DecidableEq

/-- The state on entry to `main`: the two globals have static storage and no initialiser, so
they start as null pointers; the local `world` has no value yet. -/
def MainState.initial : MainState :=
  { camera := Ptr.null, renderer := Ptr.null, world := Ptr.indeterminate, worlds := [],
    renderers := [], cameras := [], nextAddress := 1, calls := [] }

/-- The effect of one statement.  `new` returns a fresh, non-null address.  A statement that
goes through a pointer (`world->m_camera`, `renderer->render()`,
`renderer->export_output(...)`) needs the address of an object: through the null pointer or
an indeterminate pointer it fails. -/
def MainState.step (s : MainState) : MainStmt → Except MainError MainState
  | MainStmt.declareWorld => Except.ok { s with world := Ptr.indeterminate }
  | MainStmt.newWorld scene =>
    Except.ok { s with
      world := Ptr.addr s.nextAddress,
      worlds := s.worlds ++
        [{ address := s.nextAddress, scene := scene, m_camera := s.camera }],
      nextAddress := s.nextAddress + 1 }
  | MainStmt.newRenderer kind =>
    Except.ok { s with
      renderer := Ptr.addr s.nextAddress,
      renderers := s.renderers ++
        [{ address := s.nextAddress, kind := kind, world := s.world }],
      nextAddress := s.nextAddress + 1 }
  | MainStmt.newCamera kind =>
    Except.ok { s with
      camera := Ptr.addr s.nextAddress,
      cameras := s.cameras ++
        [{ address := s.nextAddress, kind := kind, renderer := s.renderer }],
      nextAddress := s.nextAddress + 1 }
  | MainStmt.attachCamera =>
    match s.world with
    | Ptr.addr w =>
      Except.ok { s with
        worlds := s.worlds.map (fun o =>
          if o.address = w then { o with m_camera := s.camera } else o) }
    | Ptr.null => Except.error (MainError.nullPointer 62)
    | Ptr.indeterminate => Except.error (MainError.indeterminatePointer 62)
  | MainStmt.render =>
    match s.renderer with
    | Ptr.addr r => Except.ok { s with calls := s.calls ++ [Call.render r] }
    | Ptr.null => Except.error (MainError.nullPointer 63)
    | Ptr.indeterminate => Except.error (MainError.indeterminatePointer 63)
  | MainStmt.exportOutput =>
    match s.renderer with
    | Ptr.addr r => Except.ok { s with calls := s.calls ++ [Call.exportOutput r] }
    | Ptr.null => Except.error (MainError.nullPointer 64)
    | Ptr.indeterminate => Except.error (MainError.indeterminatePointer 64)

/-- Running a statement sequence from a state: the statements in order, stopping at the first
failure. -/
def runStatements : List MainStmt → MainState → Except MainError MainState
  | [], s => Except.ok s
  | stmt :: rest, s =>
    match s.step stmt with
    | Except.ok next => runStatements rest next
    | Except.error e => Except.error e

/-- Building and running `main` under a configuration: the block is checked first, and only
a well-formed block is run. -/
def runMain (cfg : BuildConfig) : Except MainError MainState :=
  match checkDeclarations (mainBody cfg) with
  | Except.error e => Except.error e
  | Except.ok _ => runStatements (mainBody cfg) MainState.initial

/-- The failure of `main` under a configuration, read off the macros: with a scene macro the
second declaration of `world` (line 40, or line 44 when only `_SCENE_TEXTURED` is defined);
without one the store through the uninitialised `world` at line 62. -/
def BuildConfig.failure (cfg : BuildConfig) : MainError :=
  if cfg.SCENE_FLAT then MainError.redeclaration 40
  else if cfg.SCENE_TEXTURED then MainError.redeclaration 44
  else MainError.indeterminatePointer 62

/-- The configuration of a build without any of the six macros. -/
def BuildConfig.noMacros : BuildConfig :=
  { SCENE_FLAT := false, SCENE_TEXTURED := false, FORWARD := false, DEFERRED := false,
    ORTHOGRAPHIC := false, PERSPECTIVE := false }

/-- The configuration `_SCENE_FLAT`, `_FORWARD`, `_ORTHOGRAPHIC`: one scene, one renderer
and one camera. -/
def BuildConfig.flatForwardOrthographic : BuildConfig :=
  { SCENE_FLAT := true, SCENE_TEXTURED := false, FORWARD := true, DEFERRED := false,
    ORTHOGRAPHIC := true, PERSPECTIVE := false }

/-- The configuration `_FORWARD`, `_ORTHOGRAPHIC` without a scene macro. -/
def BuildConfig.forwardOrthographic : BuildConfig :=
  { SCENE_FLAT := false, SCENE_TEXTURED := false, FORWARD := true, DEFERRED := false,
    ORTHOGRAPHIC := true, PERSPECTIVE := false }

/-! ## Sign tables used in the proofs about the box -/

/-- The signs of the 24 box vertices in buffer order, `true` for `+side / 2`:
`v1 = (-, -, -)`, `v2 = (-, +, -)`, `v3 = (+, +, -)`, `v4 = (+, -, -)`, `v5` to `v8` the
same with `z` positive. -/
def boxCornerSigns : List (Bool × Bool × Bool) := [
  (false, false, false), (false, true, false), (true, true, false), (true, false, false),
  (false, false, true), (false, true, true), (true, true, true), (true, false, true),
  (false, true, false), (false, true, true), (true, true, true), (true, true, false),
  (false, false, false), (false, false, true), (true, false, true), (true, false, false),
  (false, false, false), (false, true, false), (false, true, true), (false, false, true),
  (true, false, false), (true, true, false), (true, true, true), (true, false, true)]

/-- The cube corner selected by a triple of signs. -/
def cornerOfSigns (side : ℚ) (s : Bool × Bool × Bool) : Point3D :=
  cubeCorner side s.1 s.2.1 s.2.2

/-- The coordinate of a point along an axis: 0 for `x`, 1 for `y`, 2 for `z`. -/
def Point3D.coord (p : Point3D) : Fin 3 → ℚ
  | 0 => p.x
  | 1 => p.y
  | 2 => p.z

/-- A point lies in the plane of face `f` of a box when, along one axis, it has the
coordinate that all four vertices of the face have. -/
def inFacePlane (m : MeshBuffers) (f : ℕ) (p : Point3D) : Prop :=
  ∃ axis : Fin 3, ∀ v ∈ faceVertices m f, v.coord axis = p.coord axis

/-- The sign of a sign triple along an axis. -/
def signCoord (s : Bool × Bool × Bool) : Fin 3 → Bool
  | 0 => s.1
  | 1 => s.2.1
  | 2 => s.2.2

/-! ## Faces of a mesh: index groups, texture coordinates, affine maps -/

/-- The six indices of face number `f`, that is of its two triangles: positions `6 * f` to
`6 * f + 5` of the index buffer. -/
def faceIndices (m : MeshBuffers) (f : ℕ) : List ℕ :=
  (m.indices.drop (6 * f)).take 6

/-- The four texture coordinates of face number `f`: positions `4 * f` to `4 * f + 3` of the
texture-coordinate buffer. -/
def faceTexCoords (m : MeshBuffers) (f : ℕ) : List Vector2D :=
  (m.texture_coords.drop (4 * f)).take 4

/-- The number of axes along which two points have different coordinates. -/
def differingAxes (a c : Point3D) : ℕ :=
  ((List.finRange 3).filter (fun axis => decide (a.coord axis ≠ c.coord axis))).length

/-- The number of positions in which two sign triples differ. -/
def differingSigns (s s' : Bool × Bool × Bool) : ℕ :=
  ((List.finRange 3).filter (fun axis => decide (signCoord s axis ≠ signCoord s' axis))).length

/-- The componentwise sum of two points, read as position vectors. -/
def Point3D.add (a b : Point3D) : Point3D :=
  { x := a.x + b.x, y := a.y + b.y, z := a.z + b.z }

/-- The point `k` times a point, read as a position vector. -/
def Point3D.scale (k : ℚ) (p : Point3D) : Point3D :=
  { x := k * p.x, y := k * p.y, z := k * p.z }

/-- The componentwise sum of two texture coordinates. -/
def Vector2D.add (a b : Vector2D) : Vector2D :=
  { x := a.x + b.x, y := a.y + b.y }

/-- An affine map from space to the texture plane:
`(x, y, z) ↦ (ux * x + uy * y + uz * z + u0, vx * x + vy * y + vz * z + v0)`. -/
structure TexMap where
  ux : ℚ
  uy : ℚ
  uz : ℚ
  u0 : ℚ
  vx : ℚ
  vy : ℚ
  vz : ℚ
  v0 : ℚ

/-- The image of a point under an affine map to the texture plane. -/
def TexMap.apply (A : TexMap) (p : Point3D) : Vector2D :=
  { x := A.ux * p.x + A.uy * p.y + A.uz * p.z + A.u0,
    y := A.vx * p.x + A.vy * p.y + A.vz * p.z + A.v0 }

/-! ## Basic facts about the literal tables -/

theorem buildAlignedBox_indices_eq (side : ℚ) :
    (buildAlignedBox side).indices =
      [0, 1, 2, 2, 3, 0, 6, 5, 4, 4, 7, 6, 8, 9, 10, 10, 11, 8,
       14, 13, 12, 12, 15, 14, 16, 19, 18, 18, 17, 16, 20, 21, 22, 22, 23, 20] := rfl

theorem buildAlignedBox_vertices_length (side : ℚ) :
    (buildAlignedBox side).vertices.length = 24 := rfl

theorem buildAlignedBox_texture_coords_length (side : ℚ) :
    (buildAlignedBox side).texture_coords.length = 24 := rfl

theorem buildHorizontalPlane_indices_eq (side : ℚ) :
    (buildHorizontalPlane side).indices = [0, 1, 2, 2, 3, 0] := rfl

theorem buildHorizontalPlane_vertices_length (side : ℚ) :
    (buildHorizontalPlane side).vertices.length = 4 := rfl

theorem buildHorizontalPlane_texture_coords_length (side : ℚ) :
    (buildHorizontalPlane side).texture_coords.length = 4 := rfl

/-- The vertex buffer of the box is the sign table read as cube corners. -/
theorem buildAlignedBox_vertices_eq (side : ℚ) :
    (buildAlignedBox side).vertices = boxCornerSigns.map (cornerOfSigns side) := by
  have h : -(side / 2) + side = side / 2 := by ring
  simp [buildAlignedBox, boxCornerSigns, cornerOfSigns, cubeCorner, sinHalfPi, h]

/-- For a non-zero side, `side / 2` and `-(side / 2)` differ, so a coordinate tells its sign. -/
theorem halfSide_eq_iff (side : ℚ) (hside : side ≠ 0) (p q : Bool) :
    (if p then side / 2 else -(side / 2)) = (if q then side / 2 else -(side / 2)) ↔ p = q := by
  constructor
  · intro hpq
    cases p <;> cases q <;>
      first
      | rfl
      | exact absurd (by simp only [Bool.false_eq_true, if_true, if_false] at hpq; linarith)
          hside
  · intro hpq
    rw [hpq]

/-- For a non-zero side, distinct sign triples give distinct corners. -/
theorem cornerOfSigns_injective (side : ℚ) (hside : side ≠ 0) :
    Function.Injective (cornerOfSigns side) := by
  rintro ⟨a, b, c⟩ ⟨a', b', c'⟩ h
  simp only [cornerOfSigns, cubeCorner, Point3D.mk.injEq] at h
  obtain ⟨hx, hy, hz⟩ := h
  rw [(halfSide_eq_iff side hside a a').mp hx, (halfSide_eq_iff side hside b b').mp hy,
    (halfSide_eq_iff side hside c c').mp hz]

/-- For a non-zero side, two corners agree along an axis exactly when their signs do. -/
theorem cornerOfSigns_coord_eq_iff (side : ℚ) (hside : side ≠ 0) (s s' : Bool × Bool × Bool)
    (axis : Fin 3) :
    (cornerOfSigns side s).coord axis = (cornerOfSigns side s').coord axis ↔
      signCoord s axis = signCoord s' axis := by
  obtain ⟨a, b, c⟩ := s
  obtain ⟨a', b', c'⟩ := s'
  fin_cases axis
  · exact halfSide_eq_iff side hside a a'
  · exact halfSide_eq_iff side hside b b'
  · exact halfSide_eq_iff side hside c c'

/-- The four vertices of a box face are the matching four rows of the sign table. -/
theorem faceVertices_buildAlignedBox (side : ℚ) (f : ℕ) :
    faceVertices (buildAlignedBox side) f =
      ((boxCornerSigns.drop (4 * f)).take 4).map (cornerOfSigns side) := by
  rw [faceVertices, buildAlignedBox_vertices_eq, List.map_take, List.map_drop]

/-- For a non-zero side, lying in the plane of a box face is a condition on signs. -/
theorem inFacePlane_iff (side : ℚ) (hside : side ≠ 0) (f : ℕ) (s : Bool × Bool × Bool) :
    inFacePlane (buildAlignedBox side) f (cornerOfSigns side s) ↔
      ∃ axis : Fin 3, ∀ s' ∈ (boxCornerSigns.drop (4 * f)).take 4,
        signCoord s' axis = signCoord s axis := by
  unfold inFacePlane
  rw [faceVertices_buildAlignedBox]
  simp only [List.forall_mem_map, cornerOfSigns_coord_eq_iff side hside]

/-- For every side, each of the 12 box triangles has normal and centroid with dot product
`side ^ 3 / 2`. -/
theorem buildAlignedBox_triangle_dot (side : ℚ) (t : ℕ) (ht : t < 12) :
    ∃ a b c, (buildAlignedBox side).triangle t = some (a, b, c) ∧
      (triangleNormal a b c).dot (triangleCentroid a b c) = side ^ 3 / 2 := by
  interval_cases t <;>
    refine ⟨_, _, _, rfl, ?_⟩ <;>
    simp [buildAlignedBox, triangleNormal, triangleCentroid, Point3D.sub, Vector3D.cross,
      Vector3D.dot, sinHalfPi] <;>
    ring

/-! ## Index ranges (C1) -/

/-- C1: for every side, the box builder yields 24 vertices and 36 indices, the plane builder
4 vertices and 6 indices; every index is below the vertex count, both index counts are
multiples of 3, and the lookup of the three corners of every triangle succeeds. -/
theorem builders_indices_in_range (side : ℚ) :
    ((buildAlignedBox side).vertices.length = 24 ∧
      (∀ i ∈ (buildAlignedBox side).indices, i < (buildAlignedBox side).vertices.length) ∧
      (buildAlignedBox side).indices.length = 36 ∧
      (buildAlignedBox side).indices.length % 3 = 0 ∧
      (∀ t, t < (buildAlignedBox side).indices.length / 3 →
        ∃ tri, (buildAlignedBox side).triangle t = some tri)) ∧
    ((buildHorizontalPlane side).vertices.length = 4 ∧
      (∀ i ∈ (buildHorizontalPlane side).indices,
        i < (buildHorizontalPlane side).vertices.length) ∧
      (buildHorizontalPlane side).indices.length = 6 ∧
      (buildHorizontalPlane side).indices.length % 3 = 0 ∧
      (∀ t, t < (buildHorizontalPlane side).indices.length / 3 →
        ∃ tri, (buildHorizontalPlane side).triangle t = some tri)) := by
  refine ⟨⟨rfl, ?_, rfl, by rw [buildAlignedBox_indices_eq]; decide, ?_⟩,
    ⟨rfl, ?_, rfl, by rw [buildHorizontalPlane_indices_eq]; decide, ?_⟩⟩
  · rw [buildAlignedBox_vertices_length, buildAlignedBox_indices_eq]
    decide
  · intro t ht
    rw [buildAlignedBox_indices_eq] at ht
    have ht12 : t < 12 := ht
    interval_cases t <;> exact ⟨_, rfl⟩
  · rw [buildHorizontalPlane_vertices_length, buildHorizontalPlane_indices_eq]
    decide
  · intro t ht
    rw [buildHorizontalPlane_indices_eq] at ht
    have ht2 : t < 2 := ht
    interval_cases t <;> exact ⟨_, rfl⟩

/-- C1 at side 100: index 23 of the box is below its vertex count, and the last triangle of
the box can be looked up. -/
theorem builders_indices_in_range_witness :
    (23 ∈ (buildAlignedBox 100).indices ∧ 23 < (buildAlignedBox 100).vertices.length) ∧
    (11 < (buildAlignedBox 100).indices.length / 3 ∧
      ∃ tri, (buildAlignedBox 100).triangle 11 = some tri) :=
  ⟨⟨by decide, (builders_indices_in_range 100).1.2.1 23 (by decide)⟩,
    ⟨by decide, (builders_indices_in_range 100).1.2.2.2.2 11 (by decide)⟩⟩

/-! ## Buffer lengths handed to the constructor (C2) -/

/-- C2: for every palette, material, colour, centre and side, each of the five object
builders hands the constructor a colour buffer and a texture-coordinate buffer whose length
is 0 or the vertex count; the colour table of `buildMultiColorBox` has as many entries as
`buildAlignedBox` has vertices. -/
theorem object_builders_length_invariant (palette : Colors) (material : MaterialPtr)
    (color : RGBColor) (center : Point3D) (side : ℚ) :
    (buildPlainBox material color center side).LengthInvariant ∧
    (buildMultiColorBox palette material center side).LengthInvariant ∧
    (buildTexturedBox material center side).LengthInvariant ∧
    (buildPlainPlane material color center side).LengthInvariant ∧
    (buildTexturedPlane material center side).LengthInvariant ∧
    (buildMultiColorBox palette material center side).colors.length =
      (buildAlignedBox side).vertices.length :=
  ⟨⟨Or.inr rfl, Or.inr rfl⟩, ⟨Or.inr rfl, Or.inr rfl⟩, ⟨Or.inl rfl, Or.inr rfl⟩,
    ⟨Or.inr rfl, Or.inr rfl⟩, ⟨Or.inl rfl, Or.inr rfl⟩, rfl⟩

/-! ## No check of `side` (C4) -/

/-- C4 as stated fails at side 0: both primitive builders complete, the box with 24 vertices
at the origin and 36 indices, the plane with 4 vertices at the origin and 6 indices, and
`buildPlainBox` hands the constructor these 24 vertices. -/
theorem builders_accept_zero_side :
    (0 : ℚ) ≤ 0 ∧
    buildAlignedBoxCall 0 ≠ none ∧
    (buildAlignedBox 0).vertices = List.replicate 24 (Point3D.mk 0 0 0) ∧
    (buildAlignedBox 0).indices.length = 36 ∧
    buildHorizontalPlaneCall 0 ≠ none ∧
    (buildHorizontalPlane 0).vertices = List.replicate 4 (Point3D.mk 0 0 0) ∧
    (buildHorizontalPlane 0).indices.length = 6 ∧
    (buildPlainBox (MaterialPtr.mk 0) RGBColor.default (Point3D.mk 0 0 0) 0).vertices =
      List.replicate 24 (Point3D.mk 0 0 0) := by
  refine ⟨le_refl 0, by simp [buildAlignedBoxCall], ?_, rfl,
    by simp [buildHorizontalPlaneCall], ?_, rfl, ?_⟩
  · simp [buildAlignedBox, sinHalfPi, List.replicate]
  · simp [buildHorizontalPlane, sinHalfPi, List.replicate]
  · simp [buildPlainBox, buildAlignedBox, sinHalfPi, List.replicate]

/-- C4 amended: the builders do not test `side`.  For every side, negative and zero included,
`buildAlignedBox` completes with 24 vertices, 24 texture coordinates and 36 indices,
`buildHorizontalPlane` completes with 4, 4 and 6, and each of the five object builders hands
the constructor the vertex and index buffers of the primitive builder it calls. -/
theorem builders_accept_every_side (palette : Colors) (material : MaterialPtr)
    (color : RGBColor) (center : Point3D) (side : ℚ) :
    (∃ b, buildAlignedBoxCall side = some b ∧ b.vertices.length = 24 ∧
      b.texture_coords.length = 24 ∧ b.indices.length = 36) ∧
    (∃ b, buildHorizontalPlaneCall side = some b ∧ b.vertices.length = 4 ∧
      b.texture_coords.length = 4 ∧ b.indices.length = 6) ∧
    ((buildPlainBox material color center side).vertices = (buildAlignedBox side).vertices ∧
      (buildPlainBox material color center side).indices = (buildAlignedBox side).indices) ∧
    ((buildMultiColorBox palette material center side).vertices =
        (buildAlignedBox side).vertices ∧
      (buildMultiColorBox palette material center side).indices =
        (buildAlignedBox side).indices) ∧
    ((buildTexturedBox material center side).vertices = (buildAlignedBox side).vertices ∧
      (buildTexturedBox material center side).indices = (buildAlignedBox side).indices) ∧
    ((buildPlainPlane material color center side).vertices =
        (buildHorizontalPlane side).vertices ∧
      (buildPlainPlane material color center side).indices =
        (buildHorizontalPlane side).indices) ∧
    ((buildTexturedPlane material center side).vertices =
        (buildHorizontalPlane side).vertices ∧
      (buildTexturedPlane material center side).indices =
        (buildHorizontalPlane side).indices) :=
  ⟨⟨buildAlignedBox side, rfl, rfl, rfl, rfl⟩, ⟨buildHorizontalPlane side, rfl, rfl, rfl, rfl⟩,
    ⟨rfl, rfl⟩, ⟨rfl, rfl⟩, ⟨rfl, rfl⟩, ⟨rfl, rfl⟩, ⟨rfl, rfl⟩⟩

/-! ## The scene assembly of `main` (C7) -/

/-- C7: `main` does not reach `render()` in any build configuration.  With `_SCENE_FLAT`,
`_FORWARD` and `_ORTHOGRAPHIC` defined, line 40 declares `world` a second time after line 38
and the program is ill-formed; so it is under every configuration with a scene macro.
Without a scene macro `world` is never assigned and line 62 stores through an indeterminate
pointer.  In every configuration the failure lies before line 63. -/
theorem main_never_reaches_render :
    runMain BuildConfig.flatForwardOrthographic = Except.error (MainError.redeclaration 40) ∧
    runMain BuildConfig.forwardOrthographic = Except.error (MainError.indeterminatePointer 62) ∧
    runMain BuildConfig.noMacros = Except.error (MainError.indeterminatePointer 62) ∧
    (∀ cfg : BuildConfig, runMain cfg = Except.error cfg.failure ∧ cfg.failure.line < 63) := by
  refine ⟨rfl, rfl, rfl, ?_⟩
  rintro ⟨a, b, c, d, e, f⟩
  cases a <;> cases b <;> cases c <;> cases d <;> cases e <;> cases f <;>
    exact ⟨rfl, by decide⟩

/-- The statements that follow line 38, run on their own under `_SCENE_FLAT`, `_FORWARD`,
`_ORTHOGRAPHIC`: the world is built with the null camera, the renderer is bound to that world,
the camera to that renderer, line 62 stores the camera in the world, and `render()` precedes
`export_output()`.  This is the assembly that lines 40 to 64 spell out; line 38 keeps the
program from being built. -/
theorem statements_after_line_38 :
    runStatements (mainBody BuildConfig.flatForwardOrthographic).tail MainState.initial =
      Except.ok
        { camera := Ptr.addr 3, renderer := Ptr.addr 2, world := Ptr.addr 1,
          worlds := [{ address := 1, scene := SceneKind.flat, m_camera := Ptr.addr 3 }],
          renderers := [{ address := 2, kind := RendererKind.forward, world := Ptr.addr 1 }],
          cameras :=
            [{ address := 3, kind := CameraKind.orthographic, renderer := Ptr.addr 2 }],
          nextAddress := 4,
          calls := [Call.render 2, Call.exportOutput 2] } :=
  rfl

/-! ## Colour buffers of plain and textured objects (C5) -/

/-- C5: for every colour and side, the plain builders pass one colour per vertex, all equal
to the given colour, and the textured builders pass an empty colour buffer together with one
texture coordinate per vertex. -/
theorem colour_buffer_of_plain_and_textured (material : MaterialPtr) (color : RGBColor)
    (center : Point3D) (side : ℚ) :
    ((buildPlainBox material color center side).colors.length =
        (buildPlainBox material color center side).vertices.length ∧
      ∀ c ∈ (buildPlainBox material color center side).colors, c = color) ∧
    ((buildPlainPlane material color center side).colors.length =
        (buildPlainPlane material color center side).vertices.length ∧
      ∀ c ∈ (buildPlainPlane material color center side).colors, c = color) ∧
    ((buildTexturedBox material center side).colors = [] ∧
      (buildTexturedBox material center side).texture_coords.length =
        (buildTexturedBox material center side).vertices.length) ∧
    ((buildTexturedPlane material center side).colors = [] ∧
      (buildTexturedPlane material center side).texture_coords.length =
        (buildTexturedPlane material center side).vertices.length) := by
  refine ⟨⟨rfl, ?_⟩, ⟨rfl, ?_⟩, ⟨rfl, rfl⟩, ⟨rfl, rfl⟩⟩
  · intro c hc
    exact List.eq_of_mem_replicate hc
  · intro c hc
    exact List.eq_of_mem_replicate hc

/-- C5 for a red box of side 100: an entry of its colour buffer is red. -/
theorem colour_buffer_of_plain_and_textured_witness :
    RGBColor.ofFloats 1 0 0 ∈
        (buildPlainBox (MaterialPtr.mk 0) (RGBColor.ofFloats 1 0 0) (Point3D.mk 0 0 0)
          100).colors ∧
      RGBColor.ofFloats 1 0 0 = RGBColor.ofFloats 1 0 0 :=
  ⟨List.mem_cons_self _ _,
    (colour_buffer_of_plain_and_textured (MaterialPtr.mk 0) (RGBColor.ofFloats 1 0 0)
      (Point3D.mk 0 0 0) 100).1.2 (RGBColor.ofFloats 1 0 0) (List.mem_cons_self _ _)⟩

/-! ## `RGBColor` (C6, C10) -/

/-- C6: a default-constructed colour has `r = 1`, `g = 1`, `b = 1` and converts to the
vector `(1, 1, 1)`. -/
theorem default_colour_is_white :
    RGBColor.default.r = 1 ∧ RGBColor.default.g = 1 ∧ RGBColor.default.b = 1 ∧
    RGBColor.default.toVector3D = Vector3D.mk 1 1 1 :=
  ⟨rfl, rfl, rfl, rfl⟩

/-- C10: the conversion keeps the components in order, for the three-argument and for the
one-argument constructor, and it is injective: two colours with the same image have equal
components. -/
theorem colour_conversion_preserves_components :
    (∀ red green blue : ℚ,
      (RGBColor.ofFloats red green blue).toVector3D = Vector3D.mk red green blue) ∧
    (∀ v : ℚ, (RGBColor.ofFloat v).toVector3D = Vector3D.mk v v v) ∧
    Function.Injective RGBColor.toVector3D ∧
    (∀ c d : RGBColor, c.toVector3D = d.toVector3D → c.r = d.r ∧ c.g = d.g ∧ c.b = d.b) := by
  have key : ∀ c d : RGBColor, c.toVector3D = d.toVector3D →
      c.r = d.r ∧ c.g = d.g ∧ c.b = d.b := by
    intro c d h
    have hx := congrArg Vector3D.x h
    have hy := congrArg Vector3D.y h
    have hz := congrArg Vector3D.z h
    exact ⟨hx, hy, hz⟩
  refine ⟨fun _ _ _ => rfl, fun _ => rfl, ?_, key⟩
  intro c d h
  obtain ⟨hr, hg, hb⟩ := key c d h
  cases c
  cases d
  simp only [RGBColor.mk.injEq]
  exact ⟨hr, hg, hb⟩

/-- C10 for grey 1/2 and the colour (1/2, 1/2, 1/2): they convert to the same vector and
have equal components. -/
theorem colour_conversion_preserves_components_witness :
    (RGBColor.ofFloat (1 / 2)).toVector3D =
        (RGBColor.ofFloats (1 / 2) (1 / 2) (1 / 2)).toVector3D ∧
      (RGBColor.ofFloat (1 / 2)).r = (RGBColor.ofFloats (1 / 2) (1 / 2) (1 / 2)).r ∧
      (RGBColor.ofFloat (1 / 2)).g = (RGBColor.ofFloats (1 / 2) (1 / 2) (1 / 2)).g ∧
      (RGBColor.ofFloat (1 / 2)).b = (RGBColor.ofFloats (1 / 2) (1 / 2) (1 / 2)).b :=
  ⟨rfl, colour_conversion_preserves_components.2.2.2 _ _ rfl⟩

/-! ## Winding of the box triangles (C3) -/

/-- C3: for every side > 0 and every one of the 12 triangles of the box, the right-hand
normal `(v_b - v_a) × (v_c - v_a)` has a strictly positive dot product with the centroid of
the triangle: it points away from the origin, the centre of the box. -/
theorem box_triangles_wound_outward (side : ℚ) (hside : 0 < side) (t : ℕ)
    (ht : t < (buildAlignedBox side).indices.length / 3) :
    (buildAlignedBox side).indices.length / 3 = 12 ∧
    ∃ a b c, (buildAlignedBox side).triangle t = some (a, b, c) ∧
      0 < (triangleNormal a b c).dot (triangleCentroid a b c) := by
  have hlen : (buildAlignedBox side).indices.length / 3 = 12 := by
    rw [buildAlignedBox_indices_eq]
    decide
  rw [hlen] at ht
  obtain ⟨a, b, c, htri, hdot⟩ := buildAlignedBox_triangle_dot side t ht
  refine ⟨hlen, a, b, c, htri, ?_⟩
  rw [hdot]
  positivity

/-- C3 at side 2, triangle 0. -/
theorem box_triangles_wound_outward_witness :
    (0 : ℚ) < 2 ∧ (buildAlignedBox 2).indices.length / 3 = 12 ∧
      ∃ a b c, (buildAlignedBox 2).triangle 0 = some (a, b, c) ∧
        0 < (triangleNormal a b c).dot (triangleCentroid a b c) :=
  ⟨by norm_num, box_triangles_wound_outward 2 (by norm_num) 0 (by decide)⟩

/-! ## The box is an axis-aligned cube (C8) -/

/-- C8: for every side, every coordinate of every box vertex is `side / 2` or `-(side / 2)`;
for a non-zero side each of the 8 corners occurs exactly 3 times among the 24 vertices: at
most once among the four vertices of a face, in exactly 3 of the 6 faces, and these are the
faces whose plane passes through the corner. -/
theorem box_is_axis_aligned_cube (side : ℚ) :
    (buildAlignedBox side).vertices.length = 24 ∧
    (∀ v ∈ (buildAlignedBox side).vertices,
      (v.x = side / 2 ∨ v.x = -(side / 2)) ∧ (v.y = side / 2 ∨ v.y = -(side / 2)) ∧
      (v.z = side / 2 ∨ v.z = -(side / 2))) ∧
    (side ≠ 0 → ∀ px py pz : Bool,
      (buildAlignedBox side).vertices.count (cubeCorner side px py pz) = 3 ∧
      (∀ f, f < 6 →
        (faceVertices (buildAlignedBox side) f).count (cubeCorner side px py pz) ≤ 1) ∧
      ((List.range 6).filter (fun f =>
        decide (cubeCorner side px py pz ∈ faceVertices (buildAlignedBox side) f))).length
        = 3 ∧
      (∀ f, f < 6 →
        (cubeCorner side px py pz ∈ faceVertices (buildAlignedBox side) f ↔
          inFacePlane (buildAlignedBox side) f (cubeCorner side px py pz)))) := by
  refine ⟨rfl, ?_, ?_⟩
  · intro v hv
    rw [buildAlignedBox_vertices_eq, List.mem_map] at hv
    obtain ⟨⟨a, b, c⟩, -, rfl⟩ := hv
    cases a <;> cases b <;> cases c <;> simp [cornerOfSigns, cubeCorner]
  · intro hside px py pz
    have hinj := cornerOfSigns_injective side hside
    have hcorner : cubeCorner side px py pz = cornerOfSigns side (px, py, pz) := rfl
    refine ⟨?_, ?_, ?_, ?_⟩
    · rw [buildAlignedBox_vertices_eq, hcorner, List.count_map_of_injective _ _ hinj]
      cases px <;> cases py <;> cases pz <;> decide
    · intro f hf
      rw [faceVertices_buildAlignedBox, hcorner, List.count_map_of_injective _ _ hinj]
      interval_cases f <;> cases px <;> cases py <;> cases pz <;> decide
    · simp only [faceVertices_buildAlignedBox, hcorner, List.mem_map_of_injective hinj]
      cases px <;> cases py <;> cases pz <;> decide
    · intro f hf
      rw [hcorner, inFacePlane_iff side hside, faceVertices_buildAlignedBox,
        List.mem_map_of_injective hinj]
      interval_cases f <;> cases px <;> cases py <;> cases pz <;> decide

/-- C8 at side 100: the corner `(50, 50, 50)` occurs 3 times. -/
theorem box_is_axis_aligned_cube_witness :
    (100 : ℚ) ≠ 0 ∧ (buildAlignedBox 100).vertices.count (cubeCorner 100 true true true) = 3 :=
  ⟨by norm_num, ((box_is_axis_aligned_cube 100).2.2 (by norm_num) true true true).1⟩

/-! ## The plane is a horizontal square facing upward (C9) -/

/-- C9: for every side, the plane has the four vertices `(-side/2, 0, -side/2)`,
`(-side/2, 0, side/2)`, `(side/2, 0, side/2)`, `(side/2, 0, -side/2)` and the triangles
`(0, 1, 2)` and `(2, 3, 0)`; both triangles have the right-hand normal `(0, side ^ 2, 0)`,
whose `y` component is positive when the side is not zero. -/
theorem plane_is_upward_square (side : ℚ) :
    (buildHorizontalPlane side).vertices =
      [Point3D.mk (-(side / 2)) 0 (-(side / 2)), Point3D.mk (-(side / 2)) 0 (side / 2),
       Point3D.mk (side / 2) 0 (side / 2), Point3D.mk (side / 2) 0 (-(side / 2))] ∧
    (buildHorizontalPlane side).indices = [0, 1, 2, 2, 3, 0] ∧
    (∀ t, t < 2 → ∃ a b c, (buildHorizontalPlane side).triangle t = some (a, b, c) ∧
      triangleNormal a b c = Vector3D.mk 0 (side ^ 2) 0 ∧
      (side ≠ 0 → 0 < (triangleNormal a b c).y)) := by
  have h : -(side / 2) + side = side / 2 := by ring
  refine ⟨?_, rfl, ?_⟩
  · simp [buildHorizontalPlane, sinHalfPi, h]
  · intro t ht
    have hy : side ≠ 0 → 0 < (Vector3D.mk 0 (side ^ 2) 0).y := by
      intro hside
      show 0 < side ^ 2
      positivity
    have hnormal : ∀ a b c : Point3D, triangleNormal a b c = Vector3D.mk 0 (side ^ 2) 0 →
        triangleNormal a b c = Vector3D.mk 0 (side ^ 2) 0 ∧
          (side ≠ 0 → 0 < (triangleNormal a b c).y) := by
      intro a b c habc
      rw [habc]
      exact ⟨rfl, hy⟩
    interval_cases t <;>
      refine ⟨_, _, _, rfl, hnormal _ _ _ ?_⟩ <;>
      simp [buildHorizontalPlane, triangleNormal, Point3D.sub, Vector3D.cross, sinHalfPi] <;>
      ring

/-- C9 at side 500: the first triangle of the plane has normal `(0, 250000, 0)`, which
points upward. -/
theorem plane_is_upward_square_witness :
    (0 : ℕ) < 2 ∧ ∃ a b c, (buildHorizontalPlane 500).triangle 0 = some (a, b, c) ∧
      triangleNormal a b c = Vector3D.mk 0 (500 ^ 2) 0 ∧
      ((500 : ℚ) ≠ 0 → 0 < (triangleNormal a b c).y) :=
  ⟨by decide, (plane_is_upward_square 500).2.2 0 (by decide)⟩

/-! ## Triangles stay within their face (C11) -/

/-- For every side, the coordinate of a corner along an axis is read off its sign. -/
theorem cornerOfSigns_coord (side : ℚ) (s : Bool × Bool × Bool) (axis : Fin 3) :
    (cornerOfSigns side s).coord axis =
      if signCoord s axis then side / 2 else -(side / 2) := by
  obtain ⟨a, b, c⟩ := s
  fin_cases axis <;> rfl

/-- For a non-zero side, two corners differ along as many axes as their signs differ. -/
theorem differingAxes_cornerOfSigns (side : ℚ) (hside : side ≠ 0) (s s' : Bool × Bool × Bool) :
    differingAxes (cornerOfSigns side s) (cornerOfSigns side s') = differingSigns s s' := by
  simp only [differingAxes, differingSigns, ne_eq, cornerOfSigns_coord_eq_iff side hside]

/-- In the sign table, the four rows of a face agree along exactly one axis. -/
theorem boxCornerSigns_face_axis (f : ℕ) (hf : f < 6) :
    ∃ axis : Fin 3, ∃ positive : Bool,
      (∀ s ∈ (boxCornerSigns.drop (4 * f)).take 4, signCoord s axis = positive) ∧
      ∀ other : Fin 3, (∀ s ∈ (boxCornerSigns.drop (4 * f)).take 4,
        ∀ s' ∈ (boxCornerSigns.drop (4 * f)).take 4,
          signCoord s other = signCoord s' other) → other = axis := by
  interval_cases f
  · exact ⟨2, false, by decide, by decide⟩
  · exact ⟨2, true, by decide, by decide⟩
  · exact ⟨1, true, by decide, by decide⟩
  · exact ⟨1, false, by decide, by decide⟩
  · exact ⟨0, false, by decide, by decide⟩
  · exact ⟨0, true, by decide, by decide⟩

/-- C11: for every side and each face `f < 6` of the box, the six indices at positions `6 * f`
to `6 * f + 5` all lie in `4 * f .. 4 * f + 3` and mention each of these four vertices; the
indices common to the two triangles of the face are exactly `4 * f` and `4 * f + 2`; the four
vertices of the face share one coordinate, equal to `side / 2` or `-(side / 2)`.  For a
non-zero side that coordinate is the only shared one, and the vertices at `4 * f` and
`4 * f + 2` are opposite corners of the quad: they differ along two axes, while neighbours in
buffer order differ along one. -/
theorem box_triangles_stay_within_face (side : ℚ) (f : ℕ) (hf : f < 6) :
    (faceIndices (buildAlignedBox side) f).length = 6 ∧
    (∀ i ∈ faceIndices (buildAlignedBox side) f, 4 * f ≤ i ∧ i < 4 * f + 4) ∧
    (∀ k, k < 4 → 4 * f + k ∈ faceIndices (buildAlignedBox side) f) ∧
    (∀ i, (i ∈ (faceIndices (buildAlignedBox side) f).take 3 ∧
        i ∈ (faceIndices (buildAlignedBox side) f).drop 3) ↔ (i = 4 * f ∨ i = 4 * f + 2)) ∧
    (∃ axis : Fin 3, ∃ positive : Bool,
      (∀ v ∈ faceVertices (buildAlignedBox side) f,
        v.coord axis = if positive then side / 2 else -(side / 2)) ∧
      (side ≠ 0 → ∀ other : Fin 3,
        (∀ v ∈ faceVertices (buildAlignedBox side) f,
          ∀ w ∈ faceVertices (buildAlignedBox side) f, v.coord other = w.coord other) →
        other = axis)) ∧
    (side ≠ 0 → ∃ v0 v1 v2 v3, faceVertices (buildAlignedBox side) f = [v0, v1, v2, v3] ∧
      differingAxes v0 v2 = 2 ∧ differingAxes v1 v3 = 2 ∧
      differingAxes v0 v1 = 1 ∧ differingAxes v1 v2 = 1 ∧
      differingAxes v2 v3 = 1 ∧ differingAxes v3 v0 = 1) := by
  have hidx : faceIndices (buildAlignedBox side) f =
      ([0, 1, 2, 2, 3, 0, 6, 5, 4, 4, 7, 6, 8, 9, 10, 10, 11, 8,
        14, 13, 12, 12, 15, 14, 16, 19, 18, 18, 17, 16, 20, 21, 22, 22, 23, 20].drop
          (6 * f)).take 6 := rfl
  rw [hidx]
  refine ⟨?_, ?_, ?_, ?_, ?_, ?_⟩
  · interval_cases f <;> rfl
  · interval_cases f <;> decide
  · interval_cases f <;> decide
  · intro i
    interval_cases f <;> simp <;> omega
  · obtain ⟨axis, positive, hconst, hunique⟩ := boxCornerSigns_face_axis f hf
    refine ⟨axis, positive, ?_, ?_⟩
    · rw [faceVertices_buildAlignedBox]
      intro v hv
      obtain ⟨s, hs, rfl⟩ := List.mem_map.mp hv
      rw [cornerOfSigns_coord, hconst s hs]
    · intro hside other hother
      apply hunique
      rw [faceVertices_buildAlignedBox] at hother
      intro s hs s' hs'
      exact (cornerOfSigns_coord_eq_iff side hside s s' other).mp
        (hother _ (List.mem_map_of_mem _ hs) _ (List.mem_map_of_mem _ hs'))
  · intro hside
    have hsign : ∃ s0 s1 s2 s3, (boxCornerSigns.drop (4 * f)).take 4 = [s0, s1, s2, s3] ∧
        differingSigns s0 s2 = 2 ∧ differingSigns s1 s3 = 2 ∧
        differingSigns s0 s1 = 1 ∧ differingSigns s1 s2 = 1 ∧
        differingSigns s2 s3 = 1 ∧ differingSigns s3 s0 = 1 := by
      interval_cases f <;> exact ⟨_, _, _, _, rfl, by decide⟩
    obtain ⟨s0, s1, s2, s3, hrows, h⟩ := hsign
    refine ⟨cornerOfSigns side s0, cornerOfSigns side s1, cornerOfSigns side s2,
      cornerOfSigns side s3, ?_, ?_⟩
    · rw [faceVertices_buildAlignedBox, hrows]
      rfl
    · simp only [differingAxes_cornerOfSigns side hside]
      exact h

/-- C11 at side 100, left face (number 4): its six indices are `16, 19, 18, 18, 17, 16`. -/
theorem box_triangles_stay_within_face_witness :
    (4 < 6) ∧ faceIndices (buildAlignedBox 100) 4 = [16, 19, 18, 18, 17, 16] ∧
      ∀ i ∈ faceIndices (buildAlignedBox 100) 4, 4 * 4 ≤ i ∧ i < 4 * 4 + 4 :=
  ⟨by decide, rfl, (box_triangles_stay_within_face 100 4 (by decide)).2.1⟩

/-! ## Texture coordinates of the quads (C12) -/

/-- For a non-zero side, one affine map sends the four vertices of a box face to their
texture coordinates. -/
theorem box_face_texmap (side : ℚ) (hside : side ≠ 0) (f : ℕ) (hf : f < 6) :
    ∃ A : TexMap, ∀ pt ∈ (faceVertices (buildAlignedBox side) f).zip
        (faceTexCoords (buildAlignedBox side) f), A.apply pt.1 = pt.2 := by
  interval_cases f
  · refine ⟨⟨1 / side, 0, 0, 1 / 2, 0, 1 / side, 0, 1 / 2⟩, ?_⟩
    simp [faceVertices, faceTexCoords, buildAlignedBox, TexMap.apply, sinHalfPi]
    repeat' constructor
    all_goals try field_simp
    all_goals try ring
  · refine ⟨⟨-(1 / side), 0, 0, 1 / 2, 0, -(1 / side), 0, 1 / 2⟩, ?_⟩
    simp [faceVertices, faceTexCoords, buildAlignedBox, TexMap.apply, sinHalfPi]
    repeat' constructor
    all_goals try field_simp
    all_goals try ring
  · refine ⟨⟨1 / side, 0, 0, 1 / 2, 0, 0, 1 / side, 1 / 2⟩, ?_⟩
    simp [faceVertices, faceTexCoords, buildAlignedBox, TexMap.apply, sinHalfPi]
    repeat' constructor
    all_goals try field_simp
    all_goals try ring
  · refine ⟨⟨1 / side, 0, 0, 1 / 2, 0, 0, 1 / side, 1 / 2⟩, ?_⟩
    simp [faceVertices, faceTexCoords, buildAlignedBox, TexMap.apply, sinHalfPi]
    repeat' constructor
    all_goals try field_simp
    all_goals try ring
  · refine ⟨⟨0, 0, -(1 / side), 1 / 2, 0, 1 / side, 0, 1 / 2⟩, ?_⟩
    simp [faceVertices, faceTexCoords, buildAlignedBox, TexMap.apply, sinHalfPi]
    repeat' constructor
    all_goals try field_simp
    all_goals try ring
  · refine ⟨⟨0, 0, 1 / side, 1 / 2, 0, 1 / side, 0, 1 / 2⟩, ?_⟩
    simp [faceVertices, faceTexCoords, buildAlignedBox, TexMap.apply, sinHalfPi]
    repeat' constructor
    all_goals try field_simp
    all_goals try ring

/-- For a non-zero side, one affine map sends the four vertices of the plane to their
texture coordinates. -/
theorem plane_texmap (side : ℚ) (hside : side ≠ 0) :
    ∃ A : TexMap, ∀ pt ∈ (buildHorizontalPlane side).vertices.zip
        (buildHorizontalPlane side).texture_coords, A.apply pt.1 = pt.2 := by
  refine ⟨⟨2 / side, 0, 0, 1, 0, 0, 2 / side, 1⟩, ?_⟩
  simp [buildHorizontalPlane, TexMap.apply, sinHalfPi]
  repeat' constructor
  all_goals try field_simp
  all_goals try ring

/-- For every side, the texture coordinates of a box face are the four corners of the unit
square, and opposite corners of the face have equal sums in texture and in position. -/
theorem box_face_texture_corners (side : ℚ) (f : ℕ) (hf : f < 6) :
    ∃ v0 v1 v2 v3 t0 t1 t2 t3,
      faceVertices (buildAlignedBox side) f = [v0, v1, v2, v3] ∧
      faceTexCoords (buildAlignedBox side) f = [t0, t1, t2, t3] ∧
      [t0, t1, t2, t3].Nodup ∧
      (∀ t ∈ [t0, t1, t2, t3], (t.x = 0 ∨ t.x = 1) ∧ (t.y = 0 ∨ t.y = 1)) ∧
      (∀ c ∈ [Vector2D.mk 0 0, Vector2D.mk 0 1, Vector2D.mk 1 0, Vector2D.mk 1 1],
        c ∈ [t0, t1, t2, t3]) ∧
      t0.add t2 = Vector2D.mk 1 1 ∧ t1.add t3 = Vector2D.mk 1 1 ∧
      v0.add v2 = v1.add v3 := by
  interval_cases f <;>
    refine ⟨_, _, _, _, _, _, _, _, rfl, rfl, ?_, ?_, ?_, ?_, ?_, ?_⟩ <;>
    simp [buildAlignedBox, sinHalfPi, Vector2D.add, Point3D.add] <;>
    ring_nf

/-- For every side, the texture coordinates of the plane are the four corners of the square
of edge 2, and opposite corners have equal sums in texture and in position. -/
theorem plane_texture_corners (side : ℚ) :
    ∃ v0 v1 v2 v3 t0 t1 t2 t3,
      (buildHorizontalPlane side).vertices = [v0, v1, v2, v3] ∧
      (buildHorizontalPlane side).texture_coords = [t0, t1, t2, t3] ∧
      [t0, t1, t2, t3].Nodup ∧
      (∀ t ∈ [t0, t1, t2, t3], (t.x = 0 ∨ t.x = 2) ∧ (t.y = 0 ∨ t.y = 2)) ∧
      (∀ c ∈ [Vector2D.mk 0 0, Vector2D.mk 0 2, Vector2D.mk 2 0, Vector2D.mk 2 2],
        c ∈ [t0, t1, t2, t3]) ∧
      t0.add t2 = Vector2D.mk 2 2 ∧ t1.add t3 = Vector2D.mk 2 2 ∧
      v0.add v2 = v1.add v3 := by
  refine ⟨_, _, _, _, _, _, _, _, rfl, rfl, ?_, ?_, ?_, ?_, ?_, ?_⟩ <;>
    simp [buildHorizontalPlane, sinHalfPi, Vector2D.add, Point3D.add]
  ring_nf

/-- C12 as stated fails at side 0: the four vertices of the front face of the box coincide at
the origin while their texture coordinates differ, so no map, affine or not, sends the
vertices of the face to their texture coordinates. -/
theorem degenerate_box_face_has_no_texture_map :
    (faceVertices (buildAlignedBox 0) 0).zip (faceTexCoords (buildAlignedBox 0) 0) =
      [(Point3D.mk 0 0 0, Vector2D.mk 0 0), (Point3D.mk 0 0 0, Vector2D.mk 0 1),
       (Point3D.mk 0 0 0, Vector2D.mk 1 1), (Point3D.mk 0 0 0, Vector2D.mk 1 0)] ∧
    (¬ ∃ g : Point3D → Vector2D, ∀ pt ∈ (faceVertices (buildAlignedBox 0) 0).zip
        (faceTexCoords (buildAlignedBox 0) 0), g pt.1 = pt.2) ∧
    (¬ ∃ A : TexMap, ∀ pt ∈ (faceVertices (buildAlignedBox 0) 0).zip
        (faceTexCoords (buildAlignedBox 0) 0), A.apply pt.1 = pt.2) := by
  have hzip : (faceVertices (buildAlignedBox 0) 0).zip (faceTexCoords (buildAlignedBox 0) 0) =
      [(Point3D.mk 0 0 0, Vector2D.mk 0 0), (Point3D.mk 0 0 0, Vector2D.mk 0 1),
       (Point3D.mk 0 0 0, Vector2D.mk 1 1), (Point3D.mk 0 0 0, Vector2D.mk 1 0)] := by
    simp [faceVertices, faceTexCoords, buildAlignedBox, sinHalfPi]
  have hnone : ¬ ∃ g : Point3D → Vector2D, ∀ pt ∈ (faceVertices (buildAlignedBox 0) 0).zip
      (faceTexCoords (buildAlignedBox 0) 0), g pt.1 = pt.2 := by
    rintro ⟨g, hg⟩
    rw [hzip] at hg
    have h0 : g (Point3D.mk 0 0 0) = Vector2D.mk 0 0 :=
      hg (Point3D.mk 0 0 0, Vector2D.mk 0 0) (by simp)
    have h1 : g (Point3D.mk 0 0 0) = Vector2D.mk 0 1 :=
      hg (Point3D.mk 0 0 0, Vector2D.mk 0 1) (by simp)
    rw [h0] at h1
    simp at h1
  exact ⟨hzip, hnone, fun ⟨A, hA⟩ => hnone ⟨A.apply, hA⟩⟩

/-- C12 amended: for every side, the texture coordinates of each box face are the four
distinct corners of the unit square with `tex[4f] + tex[4f+2] = tex[4f+1] + tex[4f+3] = (1, 1)`
and the positions satisfy `v[4f] + v[4f+2] = v[4f+1] + v[4f+3]`; the plane has the four
distinct corners of the square of edge 2 with sums `(2, 2)` and the same identity on positions.
For a non-zero side, one affine map sends the four vertices of each quad to their texture
coordinates. -/
theorem quads_map_texture_square (side : ℚ) :
    (∀ f, f < 6 →
      (∃ v0 v1 v2 v3 t0 t1 t2 t3,
        faceVertices (buildAlignedBox side) f = [v0, v1, v2, v3] ∧
        faceTexCoords (buildAlignedBox side) f = [t0, t1, t2, t3] ∧
        [t0, t1, t2, t3].Nodup ∧
        (∀ t ∈ [t0, t1, t2, t3], (t.x = 0 ∨ t.x = 1) ∧ (t.y = 0 ∨ t.y = 1)) ∧
        (∀ c ∈ [Vector2D.mk 0 0, Vector2D.mk 0 1, Vector2D.mk 1 0, Vector2D.mk 1 1],
          c ∈ [t0, t1, t2, t3]) ∧
        t0.add t2 = Vector2D.mk 1 1 ∧ t1.add t3 = Vector2D.mk 1 1 ∧
        v0.add v2 = v1.add v3) ∧
      (side ≠ 0 → ∃ A : TexMap, ∀ pt ∈ (faceVertices (buildAlignedBox side) f).zip
        (faceTexCoords (buildAlignedBox side) f), A.apply pt.1 = pt.2)) ∧
    ((∃ v0 v1 v2 v3 t0 t1 t2 t3,
        (buildHorizontalPlane side).vertices = [v0, v1, v2, v3] ∧
        (buildHorizontalPlane side).texture_coords = [t0, t1, t2, t3] ∧
        [t0, t1, t2, t3].Nodup ∧
        (∀ t ∈ [t0, t1, t2, t3], (t.x = 0 ∨ t.x = 2) ∧ (t.y = 0 ∨ t.y = 2)) ∧
        (∀ c ∈ [Vector2D.mk 0 0, Vector2D.mk 0 2, Vector2D.mk 2 0, Vector2D.mk 2 2],
          c ∈ [t0, t1, t2, t3]) ∧
        t0.add t2 = Vector2D.mk 2 2 ∧ t1.add t3 = Vector2D.mk 2 2 ∧
        v0.add v2 = v1.add v3) ∧
      (side ≠ 0 → ∃ A : TexMap, ∀ pt ∈ (buildHorizontalPlane side).vertices.zip
        (buildHorizontalPlane side).texture_coords, A.apply pt.1 = pt.2)) :=
  ⟨fun f hf => ⟨box_face_texture_corners side f hf, fun hside => box_face_texmap side hside f hf⟩,
    plane_texture_corners side, fun hside => plane_texmap side hside⟩

/-- C12 amended, at side 100 and the back face (number 1): an affine map sends its four
vertices to their texture coordinates. -/
theorem quads_map_texture_square_witness :
    (1 < 6) ∧ (100 : ℚ) ≠ 0 ∧
      ∃ A : TexMap, ∀ pt ∈ (faceVertices (buildAlignedBox 100) 1).zip
        (faceTexCoords (buildAlignedBox 100) 1), A.apply pt.1 = pt.2 :=
  ⟨by decide, by norm_num, ((quads_map_texture_square 100).1 1 (by decide)).2 (by norm_num)⟩

/-! ## Homogeneity in `side` (C13) -/

/-- C13: for every side `s` and factor `k`, the vertices of the box and of the plane built
with side `k * s` are `k` times the vertices built with side `s`, position by position, and
the texture coordinates and indices of either builder are the same for all sides. -/
theorem builders_homogeneous_in_side (s k : ℚ) :
    (buildAlignedBox (k * s)).vertices =
      (buildAlignedBox s).vertices.map (Point3D.scale k) ∧
    (buildHorizontalPlane (k * s)).vertices =
      (buildHorizontalPlane s).vertices.map (Point3D.scale k) ∧
    (∀ s' : ℚ, (buildAlignedBox s').texture_coords = (buildAlignedBox s).texture_coords ∧
      (buildAlignedBox s').indices = (buildAlignedBox s).indices) ∧
    (∀ s' : ℚ,
      (buildHorizontalPlane s').texture_coords = (buildHorizontalPlane s).texture_coords ∧
      (buildHorizontalPlane s').indices = (buildHorizontalPlane s).indices) := by
  have h1 : -(k * s / 2) = k * -(s / 2) := by ring
  refine ⟨?_, ?_, fun _ => ⟨rfl, rfl⟩, fun _ => ⟨rfl, rfl⟩⟩
  · simp only [buildAlignedBox, sinHalfPi, div_one, List.map, Point3D.scale, h1, mul_add]
  · simp only [buildHorizontalPlane, sinHalfPi, div_one, List.map, Point3D.scale, h1, mul_add,
      mul_zero]

end Rasterizer
